import Mathlib

/-!
Verification of `frontend/rust-lib/flowy-grid/src/entities/setting_entities.rs`:
the layout enumeration mapping between `GridLayout` and `LayoutRevision`,
`GridLayoutPB::all`, and the validating conversion
`TryInto<GridSettingChangesetParams> for GridSettingChangesetPB`.

External collaborators that this file consumes but which are not part of this
repository snapshot — `NotEmptyStr` (from `crate::entities::parser`),
`flowy_error::ErrorCode`, and the four filter/group payload conversions — are
modelled from the specification; each such definition is marked
`Modelled from the spec:` in its doc comment.
-/

set_option autoImplicit false

variable {FP DP GP HP AF DF IG DG E P A Err : Type}

/-- The presentation-facing layout enumeration (`GridLayout` in the source),
variants in declaration order: `Table = 0`, `Board = 1`. -/
inductive GridLayout where
  | Table : GridLayout
  | Board : GridLayout
  deriving DecidableEq, Repr

/-- The `Default` impl for `GridLayout` returns `GridLayout::Table`. -/
instance : Inhabited GridLayout := ⟨GridLayout.Table⟩

/-- The persistence-facing layout enumeration (`LayoutRevision` from the
`grid_rev_model` crate). The source file only consumes it; its two variants
are exactly the ones named by the exhaustive matches of the two `From` impls. -/
inductive LayoutRevision where
  | Table : LayoutRevision
  | Board : LayoutRevision
  deriving DecidableEq, Repr

/-- The impl `From<LayoutRevision> for GridLayout`. -/
def GridLayout.from_rev : LayoutRevision → GridLayout
  | LayoutRevision.Table => GridLayout.Table
  | LayoutRevision.Board => GridLayout.Board

/-- The impl `From<GridLayout> for LayoutRevision`. -/
def LayoutRevision.from_layout : GridLayout → LayoutRevision
  | GridLayout.Table => LayoutRevision.Table
  | GridLayout.Board => LayoutRevision.Board

/-- The iterator derived by `strum_macros::EnumIter` for `GridLayout`:
all variants, in declaration order. -/
def GridLayout.iter : List GridLayout := [GridLayout.Table, GridLayout.Board]

/-- `GridLayoutPB`: a wrapper holding one `GridLayout` (field `ty`). -/
structure GridLayoutPB where
  ty : GridLayout
  deriving DecidableEq, Repr

/-- `GridLayoutPB::all()`: starts from an empty vector and pushes one
`GridLayoutPB` for each variant produced by `GridLayout::iter()`. -/
def GridLayoutPB.all : List GridLayoutPB :=
  GridLayout.iter.foldl (fun layouts layout_ty => layouts ++ [⟨layout_ty⟩]) []

/-- Modelled from the spec: `NotEmptyStr` (from `crate::entities::parser`, not
part of this snapshot) wraps the accepted identifier string; the wrapped field
(`.0` in the source) holds the original, untrimmed string. -/
structure NotEmptyStr where
  val : String
  deriving DecidableEq, Repr

/-- Modelled from the spec: `NotEmptyStr::parse` trims and inspects the
identifier string and fails exactly when it is empty after trimming — that
is, when every character of the string is whitespace; on success the
original string is wrapped unchanged. -/
def NotEmptyStr.parse (s : String) : Except String NotEmptyStr :=
  if s.data.all Char.isWhitespace
  then Except.error ("Input string is empty")
  else Except.ok ⟨s⟩

/-- Modelled from the spec: the error taxonomy of the conversion —
`ViewIdInvalid` for a malformed identifier (called `InvalidIdentifier` in the
spec), plus four delegated kinds, each wrapping whatever specific error (of
type `E`) the respective subsystem produced. The concrete
`flowy_error::ErrorCode` type is an external collaborator not in this
snapshot. -/
inductive ErrorCode (E : Type) where
  | ViewIdInvalid : ErrorCode E
  | InvalidInsertFilterPayload : E → ErrorCode E
  | InvalidDeleteFilterPayload : E → ErrorCode E
  | InvalidInsertGroupPayload : E → ErrorCode E
  | InvalidDeleteGroupPayload : E → ErrorCode E
  deriving DecidableEq, Repr

/-- `GridSettingChangesetPB`: the raw changeset entity. The four payload types
(`AlterFilterPayloadPB`, `DeleteFilterPayloadPB`, `InsertGroupPayloadPB`,
`DeleteGroupPayloadPB`) belong to the filter/grouping subsystems and are kept
abstract as the type parameters `FP DP GP HP`. -/
structure GridSettingChangesetPB (FP DP GP HP : Type) where
  grid_id : String
  layout_type : GridLayout
  insert_filter : Option FP
  delete_filter : Option DP
  insert_group : Option GP
  delete_group : Option HP
  deriving DecidableEq, Repr

/-- `GridSettingChangesetParams`: the validated output struct. The four
parameter types (`AlterFilterParams`, `DeleteFilterParams`,
`InsertGroupParams`, `DeleteGroupParams`) are abstract type parameters. -/
structure GridSettingChangesetParams (AF DF IG DG : Type) where
  grid_id : String
  layout_type : LayoutRevision
  insert_filter : Option AF
  delete_filter : Option DF
  insert_group : Option IG
  delete_group : Option DG
  deriving DecidableEq, Repr

/-- `GridSettingChangesetParams::is_filter_changed`. -/
def GridSettingChangesetParams.is_filter_changed
    (p : GridSettingChangesetParams AF DF IG DG) : Bool :=
  p.insert_filter.isSome || p.delete_filter.isSome

/-- Modelled from the spec: the filter subsystem's fallible conversion of an
insert-filter payload (`AlterFilterPayloadPB::try_into`, not in this
snapshot). `f` is the subsystem-specific conversion; a failure surfaces as
the delegated `InvalidInsertFilterPayload` kind wrapping the subsystem's
error. -/
def alterFilterTryInto (f : FP → Except E AF) (payload : FP) :
    Except (ErrorCode E) AF :=
  match f payload with
  | Except.ok params => Except.ok params
  | Except.error e => Except.error (ErrorCode.InvalidInsertFilterPayload e)

/-- Modelled from the spec: the filter subsystem's fallible conversion of a
delete-filter payload (`DeleteFilterPayloadPB::try_into`). -/
def deleteFilterTryInto (f : DP → Except E DF) (payload : DP) :
    Except (ErrorCode E) DF :=
  match f payload with
  | Except.ok params => Except.ok params
  | Except.error e => Except.error (ErrorCode.InvalidDeleteFilterPayload e)

/-- Modelled from the spec: the grouping subsystem's fallible conversion of an
insert-group payload (`InsertGroupPayloadPB::try_into`). -/
def insertGroupTryInto (f : GP → Except E IG) (payload : GP) :
    Except (ErrorCode E) IG :=
  match f payload with
  | Except.ok params => Except.ok params
  | Except.error e => Except.error (ErrorCode.InvalidInsertGroupPayload e)

/-- Modelled from the spec: the grouping subsystem's fallible conversion of a
delete-group payload (`DeleteGroupPayloadPB::try_into`). -/
def deleteGroupTryInto (f : HP → Except E DG) (payload : HP) :
    Except (ErrorCode E) DG :=
  match f payload with
  | Except.ok params => Except.ok params
  | Except.error e => Except.error (ErrorCode.InvalidDeleteGroupPayload e)

/-- One optional sub-operation arm of `try_into`, as written four times in the
source: `None => None`, `Some(payload) => Some(payload.try_into()?)` — a
conversion failure propagates, a success is wrapped back in `Some`. -/
def convertOption (f : P → Except Err A) : Option P → Except Err (Option A)
  | Option.none => Except.ok Option.none
  | Option.some payload => (f payload).map Option.some

/-- The impl `TryInto<GridSettingChangesetParams> for GridSettingChangesetPB`
(the operation the spec calls `validate`), with the `?` operator desugared
into explicit matches. The arguments `fA fD fG fH` are the subsystem
conversion routines for the four payload kinds. -/
def GridSettingChangesetPB.try_into
    (fA : FP → Except E AF) (fD : DP → Except E DF)
    (fG : GP → Except E IG) (fH : HP → Except E DG)
    (self : GridSettingChangesetPB FP DP GP HP) :
    Except (ErrorCode E) (GridSettingChangesetParams AF DF IG DG) :=
  match NotEmptyStr.parse self.grid_id with
  | Except.error _ => Except.error ErrorCode.ViewIdInvalid
  | Except.ok view_id =>
  match convertOption (alterFilterTryInto fA) self.insert_filter with
  | Except.error e => Except.error e
  | Except.ok insert_filter =>
  match convertOption (deleteFilterTryInto fD) self.delete_filter with
  | Except.error e => Except.error e
  | Except.ok delete_filter =>
  match convertOption (insertGroupTryInto fG) self.insert_group with
  | Except.error e => Except.error e
  | Except.ok insert_group =>
  match convertOption (deleteGroupTryInto fH) self.delete_group with
  | Except.error e => Except.error e
  | Except.ok delete_group =>
    Except.ok { grid_id := view_id.val
              , layout_type := LayoutRevision.from_layout self.layout_type
              , insert_filter := insert_filter
              , delete_filter := delete_filter
              , insert_group := insert_group
              , delete_group := delete_group }

/-! Helper lemmas about the optional sub-operation arm and the delegated
conversions. -/

theorem convertOption_eq_error_iff {P A Err : Type} (f : P → Except Err A)
    (o : Option P) (e : Err) :
    convertOption f o = Except.error e ↔
      ∃ p, o = Option.some p ∧ f p = Except.error e := by
  cases o with
  | none => simp [convertOption]
  | some p => cases hf : f p <;> simp [convertOption, hf, Except.map]

theorem convertOption_isSome_of_ok {P A Err : Type} (f : P → Except Err A)
    (o : Option P) (r : Option A) (h : convertOption f o = Except.ok r) :
    r.isSome = o.isSome := by
  cases o with
  | none =>
    simp [convertOption] at h
    subst h
    rfl
  | some p =>
    cases hf : f p with
    | error e => simp [convertOption, hf, Except.map] at h
    | ok a =>
      simp [convertOption, hf, Except.map] at h
      subst h
      rfl

theorem alterFilterTryInto_error_iff {FP AF E : Type} (f : FP → Except E AF)
    (p : FP) (e : ErrorCode E) :
    alterFilterTryInto f p = Except.error e ↔
      ∃ e2, f p = Except.error e2 ∧ e = ErrorCode.InvalidInsertFilterPayload e2 := by
  cases hf : f p <;> simp [alterFilterTryInto, hf, eq_comm]

theorem deleteFilterTryInto_error_iff {DP DF E : Type} (f : DP → Except E DF)
    (p : DP) (e : ErrorCode E) :
    deleteFilterTryInto f p = Except.error e ↔
      ∃ e2, f p = Except.error e2 ∧ e = ErrorCode.InvalidDeleteFilterPayload e2 := by
  cases hf : f p <;> simp [deleteFilterTryInto, hf, eq_comm]

theorem insertGroupTryInto_error_iff {GP IG E : Type} (f : GP → Except E IG)
    (p : GP) (e : ErrorCode E) :
    insertGroupTryInto f p = Except.error e ↔
      ∃ e2, f p = Except.error e2 ∧ e = ErrorCode.InvalidInsertGroupPayload e2 := by
  cases hf : f p <;> simp [insertGroupTryInto, hf, eq_comm]

theorem deleteGroupTryInto_error_iff {HP DG E : Type} (f : HP → Except E DG)
    (p : HP) (e : ErrorCode E) :
    deleteGroupTryInto f p = Except.error e ↔
      ∃ e2, f p = Except.error e2 ∧ e = ErrorCode.InvalidDeleteGroupPayload e2 := by
  cases hf : f p <;> simp [deleteGroupTryInto, hf, eq_comm]

theorem convAlter_ok_of {FP AF E : Type} (f : FP → Except E AF) (o : Option FP)
    (h : o = Option.none ∨ ∃ p a, o = Option.some p ∧ f p = Except.ok a) :
    ∃ r, convertOption (alterFilterTryInto f) o = Except.ok r := by
  rcases h with rfl | ⟨p, a, rfl, ha⟩
  · exact ⟨Option.none, rfl⟩
  · exact ⟨Option.some a, by simp [convertOption, alterFilterTryInto, ha, Except.map]⟩

theorem convDeleteF_ok_of {DP DF E : Type} (f : DP → Except E DF) (o : Option DP)
    (h : o = Option.none ∨ ∃ p a, o = Option.some p ∧ f p = Except.ok a) :
    ∃ r, convertOption (deleteFilterTryInto f) o = Except.ok r := by
  rcases h with rfl | ⟨p, a, rfl, ha⟩
  · exact ⟨Option.none, rfl⟩
  · exact ⟨Option.some a, by simp [convertOption, deleteFilterTryInto, ha, Except.map]⟩

theorem convInsertG_ok_of {GP IG E : Type} (f : GP → Except E IG) (o : Option GP)
    (h : o = Option.none ∨ ∃ p a, o = Option.some p ∧ f p = Except.ok a) :
    ∃ r, convertOption (insertGroupTryInto f) o = Except.ok r := by
  rcases h with rfl | ⟨p, a, rfl, ha⟩
  · exact ⟨Option.none, rfl⟩
  · exact ⟨Option.some a, by simp [convertOption, insertGroupTryInto, ha, Except.map]⟩

theorem convDeleteG_ok_of {HP DG E : Type} (f : HP → Except E DG) (o : Option HP)
    (h : o = Option.none ∨ ∃ p a, o = Option.some p ∧ f p = Except.ok a) :
    ∃ r, convertOption (deleteGroupTryInto f) o = Except.ok r := by
  rcases h with rfl | ⟨p, a, rfl, ha⟩
  · exact ⟨Option.none, rfl⟩
  · exact ⟨Option.some a, by simp [convertOption, deleteGroupTryInto, ha, Except.map]⟩

/-! Claim theorems. -/

/-- C4: the layout mapping between `GridLayout` (presentation-facing) and
`LayoutRevision` (persistence-facing) is a total bijection: the two `From`
impls are mutually inverse on every variant, with `Table` mapping to `Table`
and `Board` to `Board` in both directions; both directions are total
functions, so neither can fail. -/
theorem layout_mapping_round_trip :
    (∀ v : GridLayout, GridLayout.from_rev (LayoutRevision.from_layout v) = v) ∧
    (∀ x : LayoutRevision, LayoutRevision.from_layout (GridLayout.from_rev x) = x) ∧
    LayoutRevision.from_layout GridLayout.Table = LayoutRevision.Table ∧
    LayoutRevision.from_layout GridLayout.Board = LayoutRevision.Board ∧
    GridLayout.from_rev LayoutRevision.Table = GridLayout.Table ∧
    GridLayout.from_rev LayoutRevision.Board = GridLayout.Board := by
  refine ⟨?_, ?_, rfl, rfl, rfl, rfl⟩ <;> intro v <;> cases v <;> rfl

/-- C8: `GridLayoutPB::all()` returns exactly the sequence of all `GridLayout`
variants in declaration order — `[Table, Board]`, of length 2. -/
theorem gridLayoutPB_all_spec :
    GridLayoutPB.all = [⟨GridLayout.Table⟩, ⟨GridLayout.Board⟩] ∧
    GridLayoutPB.all.length = 2 ∧
    GridLayoutPB.all.map GridLayoutPB.ty = GridLayout.iter :=
  ⟨rfl, rfl, rfl⟩

/-- C7: `is_filter_changed` is true exactly when `insert_filter` or
`delete_filter` is present, and false when both filter fields are absent,
independently of the group fields. -/
theorem is_filter_changed_iff {AF DF IG DG : Type}
    (p : GridSettingChangesetParams AF DF IG DG) :
    (p.is_filter_changed = true ↔
      p.insert_filter.isSome = true ∨ p.delete_filter.isSome = true) ∧
    (p.insert_filter = Option.none → p.delete_filter = Option.none →
      p.is_filter_changed = false) := by
  constructor
  · simp [GridSettingChangesetParams.is_filter_changed]
  · intro h1 h2
    simp [GridSettingChangesetParams.is_filter_changed, h1, h2]

/-- Witness for C7 at concrete inputs: true with only `insert_filter` present,
false with both filter fields absent even though both group fields are
present. -/
theorem is_filter_changed_iff_witness :
    (({ grid_id := "g", layout_type := LayoutRevision.Table,
        insert_filter := Option.some 0, delete_filter := Option.none,
        insert_group := Option.none, delete_group := Option.some 1 } :
        GridSettingChangesetParams Nat Nat Nat Nat).is_filter_changed = true) ∧
    (({ grid_id := "g", layout_type := LayoutRevision.Table,
        insert_filter := Option.none, delete_filter := Option.none,
        insert_group := Option.some 2, delete_group := Option.some 1 } :
        GridSettingChangesetParams Nat Nat Nat Nat).is_filter_changed = false) :=
  ⟨(is_filter_changed_iff _).1.mpr (Or.inl rfl),
   (is_filter_changed_iff _).2 rfl rfl⟩

/-- C5: for every changeset whose `grid_id` is the empty string, `try_into`
fails with `ErrorCode::ViewIdInvalid`, regardless of `layout_type`, of the
four optional sub-operation fields, and of the subsystem conversions. -/
theorem try_into_empty_grid_id {FP DP GP HP AF DF IG DG E : Type}
    (fA : FP → Except E AF) (fD : DP → Except E DF)
    (fG : GP → Except E IG) (fH : HP → Except E DG)
    (self : GridSettingChangesetPB FP DP GP HP) (h : self.grid_id = "") :
    self.try_into fA fD fG fH = Except.error ErrorCode.ViewIdInvalid := by
  unfold GridSettingChangesetPB.try_into
  rw [h]
  rfl

/-- Witness for C5: a concrete changeset with empty identifier, `Board`
layout, and two sub-operations present still fails with `ViewIdInvalid`. -/
theorem try_into_empty_grid_id_witness :
    GridSettingChangesetPB.try_into
      (fun n => Except.ok n : Nat → Except Nat Nat) (fun n => Except.ok n : Nat → Except Nat Nat)
      (fun n => Except.ok n : Nat → Except Nat Nat) (fun n => Except.ok n : Nat → Except Nat Nat)
      { grid_id := "", layout_type := GridLayout.Board,
        insert_filter := Option.some 3, delete_filter := Option.none,
        insert_group := Option.none, delete_group := Option.some 4 } =
    Except.error ErrorCode.ViewIdInvalid :=
  try_into_empty_grid_id _ _ _ _ _ rfl

/-- C9: `try_into` is deterministic — equal (cloned) inputs yield equal
results, whether successes or errors; no hidden state influences the
outcome. -/
theorem try_into_deterministic {FP DP GP HP AF DF IG DG E : Type}
    (fA : FP → Except E AF) (fD : DP → Except E DF)
    (fG : GP → Except E IG) (fH : HP → Except E DG)
    (a b : GridSettingChangesetPB FP DP GP HP) (h : a = b) :
    a.try_into fA fD fG fH = b.try_into fA fD fG fH := by
  rw [h]

/-- Witness for C9: two structurally equal concrete changesets convert to the
same result. -/
theorem try_into_deterministic_witness :
    GridSettingChangesetPB.try_into
      (fun n => Except.error (n + 7) : Nat → Except Nat Nat) (fun n => Except.ok n : Nat → Except Nat Nat)
      (fun n => Except.ok n : Nat → Except Nat Nat) (fun n => Except.ok n : Nat → Except Nat Nat)
      { grid_id := "g", layout_type := GridLayout.Table,
        insert_filter := Option.some 1, delete_filter := Option.none,
        insert_group := Option.none, delete_group := Option.none } =
    GridSettingChangesetPB.try_into
      (fun n => Except.error (n + 7) : Nat → Except Nat Nat) (fun n => Except.ok n : Nat → Except Nat Nat)
      (fun n => Except.ok n : Nat → Except Nat Nat) (fun n => Except.ok n : Nat → Except Nat Nat)
      { grid_id := "g", layout_type := GridLayout.Table,
        insert_filter := Option.some 1, delete_filter := Option.none,
        insert_group := Option.none, delete_group := Option.none } :=
  try_into_deterministic _ _ _ _ _ _ rfl

/-- C2: whenever `try_into` succeeds, each of the four optional sub-operation
fields is present in the output exactly when the corresponding field was
present in the input — the conversion neither fabricates nor drops optional
sub-operations. -/
theorem try_into_preserves_optional_presence {FP DP GP HP AF DF IG DG E : Type}
    (fA : FP → Except E AF) (fD : DP → Except E DF)
    (fG : GP → Except E IG) (fH : HP → Except E DG)
    (self : GridSettingChangesetPB FP DP GP HP)
    (params : GridSettingChangesetParams AF DF IG DG)
    (h : self.try_into fA fD fG fH = Except.ok params) :
    params.insert_filter.isSome = self.insert_filter.isSome ∧
    params.delete_filter.isSome = self.delete_filter.isSome ∧
    params.insert_group.isSome = self.insert_group.isSome ∧
    params.delete_group.isSome = self.delete_group.isSome := by
  unfold GridSettingChangesetPB.try_into at h
  split at h
  · exact absurd h (by simp)
  · split at h
    · exact absurd h (by simp)
    · split at h
      · exact absurd h (by simp)
      · split at h
        · exact absurd h (by simp)
        · split at h
          · exact absurd h (by simp)
          · rw [Except.ok.injEq] at h
            subst h
            refine ⟨?_, ?_, ?_, ?_⟩ <;>
              exact convertOption_isSome_of_ok _ _ _ (by assumption)

/-- Witness for C2: a concrete successful conversion with `insert_filter` and
`delete_group` present and the other two absent preserves exactly that
presence pattern. -/
theorem try_into_preserves_optional_presence_witness :
    ({ grid_id := "g", layout_type := LayoutRevision.Board,
       insert_filter := Option.some 0, delete_filter := Option.none,
       insert_group := Option.none, delete_group := Option.some 1 } :
       GridSettingChangesetParams Nat Nat Nat Nat).insert_filter.isSome
      = (Option.some 0).isSome ∧
    ({ grid_id := "g", layout_type := LayoutRevision.Board,
       insert_filter := Option.some 0, delete_filter := Option.none,
       insert_group := Option.none, delete_group := Option.some 1 } :
       GridSettingChangesetParams Nat Nat Nat Nat).delete_filter.isSome
      = (Option.none : Option Nat).isSome ∧
    ({ grid_id := "g", layout_type := LayoutRevision.Board,
       insert_filter := Option.some 0, delete_filter := Option.none,
       insert_group := Option.none, delete_group := Option.some 1 } :
       GridSettingChangesetParams Nat Nat Nat Nat).insert_group.isSome
      = (Option.none : Option Nat).isSome ∧
    ({ grid_id := "g", layout_type := LayoutRevision.Board,
       insert_filter := Option.some 0, delete_filter := Option.none,
       insert_group := Option.none, delete_group := Option.some 1 } :
       GridSettingChangesetParams Nat Nat Nat Nat).delete_group.isSome
      = (Option.some 1).isSome :=
  try_into_preserves_optional_presence
    (fun n => Except.ok n : Nat → Except Nat Nat) (fun n => Except.ok n : Nat → Except Nat Nat)
    (fun n => Except.ok n : Nat → Except Nat Nat) (fun n => Except.ok n : Nat → Except Nat Nat)
    { grid_id := "g", layout_type := GridLayout.Board,
      insert_filter := Option.some 0, delete_filter := Option.none,
      insert_group := Option.none, delete_group := Option.some 1 }
    _ rfl

/-- C6 (amended): for every changeset whose identifier is non-empty after
trimming (some character is not whitespace) and whose four optional
sub-operations are all absent, `try_into` succeeds, the output has all four
corresponding fields absent, and its `layout_type` is the `LayoutRevision`
obtained through the layout mapper — a total function that cannot fail. -/
theorem try_into_all_absent_success {FP DP GP HP AF DF IG DG E : Type}
    (fA : FP → Except E AF) (fD : DP → Except E DF)
    (fG : GP → Except E IG) (fH : HP → Except E DG)
    (self : GridSettingChangesetPB FP DP GP HP)
    (hid : self.grid_id.data.all Char.isWhitespace = false)
    (h1 : self.insert_filter = Option.none)
    (h2 : self.delete_filter = Option.none)
    (h3 : self.insert_group = Option.none)
    (h4 : self.delete_group = Option.none) :
    self.try_into fA fD fG fH = Except.ok
      { grid_id := self.grid_id
      , layout_type := LayoutRevision.from_layout self.layout_type
      , insert_filter := Option.none
      , delete_filter := Option.none
      , insert_group := Option.none
      , delete_group := Option.none } := by
  unfold GridSettingChangesetPB.try_into
  simp only [NotEmptyStr.parse, hid, Bool.false_eq_true, if_false, h1, h2, h3, h4,
    convertOption]

/-- Witness for C6 (amended): a concrete changeset with identifier `"g"`,
`Board` layout and no sub-operations converts successfully. -/
theorem try_into_all_absent_success_witness :
    GridSettingChangesetPB.try_into
      (fun n => Except.ok n : Nat → Except Nat Nat) (fun n => Except.ok n : Nat → Except Nat Nat)
      (fun n => Except.ok n : Nat → Except Nat Nat) (fun n => Except.ok n : Nat → Except Nat Nat)
      { grid_id := "g", layout_type := GridLayout.Board,
        insert_filter := Option.none, delete_filter := Option.none,
        insert_group := Option.none, delete_group := Option.none } =
    Except.ok
      { grid_id := "g", layout_type := LayoutRevision.Board,
        insert_filter := Option.none, delete_filter := Option.none,
        insert_group := Option.none, delete_group := Option.none } :=
  try_into_all_absent_success _ _ _ _ _ rfl rfl rfl rfl rfl

/-- Counterexample to C6 as stated: the identifier `" "` is a non-empty
string and all four optional sub-operations are absent, yet the conversion
fails with `ViewIdInvalid` instead of succeeding, because the identifier is
trimmed before the emptiness check. -/
theorem try_into_whitespace_id_counterexample :
    (" ") ≠ "" ∧
    GridSettingChangesetPB.try_into
      (fun n => Except.ok n : Nat → Except Nat Nat) (fun n => Except.ok n : Nat → Except Nat Nat)
      (fun n => Except.ok n : Nat → Except Nat Nat) (fun n => Except.ok n : Nat → Except Nat Nat)
      { grid_id := " ", layout_type := GridLayout.Table,
        insert_filter := Option.none, delete_filter := Option.none,
        insert_group := Option.none, delete_group := Option.none } =
    Except.error ErrorCode.ViewIdInvalid :=
  ⟨by decide, rfl⟩

/-- C10: whenever the identifier parses as non-empty and every present
sub-operation payload converts successfully in its subsystem, `try_into`
returns `Ok`; under these preconditions the error branch is unreachable. -/
theorem try_into_success_total {FP DP GP HP AF DF IG DG E : Type}
    (fA : FP → Except E AF) (fD : DP → Except E DF)
    (fG : GP → Except E IG) (fH : HP → Except E DG)
    (self : GridSettingChangesetPB FP DP GP HP)
    (hid : ∃ ne, NotEmptyStr.parse self.grid_id = Except.ok ne)
    (hif : ∀ p, self.insert_filter = Option.some p → ∃ a, fA p = Except.ok a)
    (hdf : ∀ p, self.delete_filter = Option.some p → ∃ a, fD p = Except.ok a)
    (hig : ∀ p, self.insert_group = Option.some p → ∃ a, fG p = Except.ok a)
    (hdg : ∀ p, self.delete_group = Option.some p → ∃ a, fH p = Except.ok a) :
    ∃ params, self.try_into fA fD fG fH = Except.ok params := by
  obtain ⟨ne, hne⟩ := hid
  have hok1 : self.insert_filter = Option.none ∨
      ∃ p a, self.insert_filter = Option.some p ∧ fA p = Except.ok a := by
    cases hp : self.insert_filter with
    | none => exact Or.inl rfl
    | some p => exact Or.inr ⟨p, (hif p hp).choose, rfl, (hif p hp).choose_spec⟩
  have hok2 : self.delete_filter = Option.none ∨
      ∃ p a, self.delete_filter = Option.some p ∧ fD p = Except.ok a := by
    cases hp : self.delete_filter with
    | none => exact Or.inl rfl
    | some p => exact Or.inr ⟨p, (hdf p hp).choose, rfl, (hdf p hp).choose_spec⟩
  have hok3 : self.insert_group = Option.none ∨
      ∃ p a, self.insert_group = Option.some p ∧ fG p = Except.ok a := by
    cases hp : self.insert_group with
    | none => exact Or.inl rfl
    | some p => exact Or.inr ⟨p, (hig p hp).choose, rfl, (hig p hp).choose_spec⟩
  have hok4 : self.delete_group = Option.none ∨
      ∃ p a, self.delete_group = Option.some p ∧ fH p = Except.ok a := by
    cases hp : self.delete_group with
    | none => exact Or.inl rfl
    | some p => exact Or.inr ⟨p, (hdg p hp).choose, rfl, (hdg p hp).choose_spec⟩
  obtain ⟨r1, hr1⟩ := convAlter_ok_of fA self.insert_filter hok1
  obtain ⟨r2, hr2⟩ := convDeleteF_ok_of fD self.delete_filter hok2
  obtain ⟨r3, hr3⟩ := convInsertG_ok_of fG self.insert_group hok3
  obtain ⟨r4, hr4⟩ := convDeleteG_ok_of fH self.delete_group hok4
  refine ⟨{ grid_id := ne.val
          , layout_type := LayoutRevision.from_layout self.layout_type
          , insert_filter := r1, delete_filter := r2
          , insert_group := r3, delete_group := r4 }, ?_⟩
  unfold GridSettingChangesetPB.try_into
  rw [hne, hr1, hr2, hr3, hr4]

/-- Witness for C10: a concrete changeset with a valid identifier, two
payloads present and succeeding delegates converts to some `Ok` value. -/
theorem try_into_success_total_witness :
    ∃ params, GridSettingChangesetPB.try_into
      (fun n => Except.ok n : Nat → Except Nat Nat) (fun n => Except.ok n : Nat → Except Nat Nat)
      (fun n => Except.ok n : Nat → Except Nat Nat) (fun n => Except.ok n : Nat → Except Nat Nat)
      { grid_id := "g", layout_type := GridLayout.Table,
        insert_filter := Option.some 5, delete_filter := Option.none,
        insert_group := Option.none, delete_group := Option.some 6 } =
      Except.ok params :=
  try_into_success_total _ _ _ _ _
    ⟨⟨"g"⟩, rfl⟩
    (fun p _ => ⟨p, rfl⟩) (fun p _ => ⟨p, rfl⟩)
    (fun p _ => ⟨p, rfl⟩) (fun p _ => ⟨p, rfl⟩)

/-- C1: the conversion checks the identifier first, then insert-filter, then
delete-filter, then insert-group, then delete-group, and the first failing
check aborts the whole conversion with that check's error, regardless of the
validity of every later field; hence when several fields are simultaneously
invalid the reported error is that of the earliest field in this order, and
no partial output is produced. -/
theorem try_into_short_circuit_order {FP DP GP HP AF DF IG DG E : Type}
    (fA : FP → Except E AF) (fD : DP → Except E DF)
    (fG : GP → Except E IG) (fH : HP → Except E DG)
    (self : GridSettingChangesetPB FP DP GP HP) :
    ((∃ msg, NotEmptyStr.parse self.grid_id = Except.error msg) →
      self.try_into fA fD fG fH = Except.error ErrorCode.ViewIdInvalid) ∧
    (∀ ne p e, NotEmptyStr.parse self.grid_id = Except.ok ne →
      self.insert_filter = Option.some p → fA p = Except.error e →
      self.try_into fA fD fG fH =
        Except.error (ErrorCode.InvalidInsertFilterPayload e)) ∧
    (∀ ne p e, NotEmptyStr.parse self.grid_id = Except.ok ne →
      (self.insert_filter = Option.none ∨
        ∃ q a, self.insert_filter = Option.some q ∧ fA q = Except.ok a) →
      self.delete_filter = Option.some p → fD p = Except.error e →
      self.try_into fA fD fG fH =
        Except.error (ErrorCode.InvalidDeleteFilterPayload e)) ∧
    (∀ ne p e, NotEmptyStr.parse self.grid_id = Except.ok ne →
      (self.insert_filter = Option.none ∨
        ∃ q a, self.insert_filter = Option.some q ∧ fA q = Except.ok a) →
      (self.delete_filter = Option.none ∨
        ∃ q a, self.delete_filter = Option.some q ∧ fD q = Except.ok a) →
      self.insert_group = Option.some p → fG p = Except.error e →
      self.try_into fA fD fG fH =
        Except.error (ErrorCode.InvalidInsertGroupPayload e)) ∧
    (∀ ne p e, NotEmptyStr.parse self.grid_id = Except.ok ne →
      (self.insert_filter = Option.none ∨
        ∃ q a, self.insert_filter = Option.some q ∧ fA q = Except.ok a) →
      (self.delete_filter = Option.none ∨
        ∃ q a, self.delete_filter = Option.some q ∧ fD q = Except.ok a) →
      (self.insert_group = Option.none ∨
        ∃ q a, self.insert_group = Option.some q ∧ fG q = Except.ok a) →
      self.delete_group = Option.some p → fH p = Except.error e →
      self.try_into fA fD fG fH =
        Except.error (ErrorCode.InvalidDeleteGroupPayload e)) := by
  refine ⟨?_, ?_, ?_, ?_, ?_⟩
  · rintro ⟨msg, hmsg⟩
    unfold GridSettingChangesetPB.try_into
    rw [hmsg]
  · intro ne p e hne hp he
    unfold GridSettingChangesetPB.try_into
    rw [hne, hp]
    simp only [convertOption, alterFilterTryInto, he, Except.map]
  · intro ne p e hne hok1 hp he
    obtain ⟨r1, hr1⟩ := convAlter_ok_of fA self.insert_filter hok1
    unfold GridSettingChangesetPB.try_into
    rw [hne, hr1, hp]
    simp only [convertOption, deleteFilterTryInto, he, Except.map]
  · intro ne p e hne hok1 hok2 hp he
    obtain ⟨r1, hr1⟩ := convAlter_ok_of fA self.insert_filter hok1
    obtain ⟨r2, hr2⟩ := convDeleteF_ok_of fD self.delete_filter hok2
    unfold GridSettingChangesetPB.try_into
    rw [hne, hr1, hr2, hp]
    simp only [convertOption, insertGroupTryInto, he, Except.map]
  · intro ne p e hne hok1 hok2 hok3 hp he
    obtain ⟨r1, hr1⟩ := convAlter_ok_of fA self.insert_filter hok1
    obtain ⟨r2, hr2⟩ := convDeleteF_ok_of fD self.delete_filter hok2
    obtain ⟨r3, hr3⟩ := convInsertG_ok_of fG self.insert_group hok3
    unfold GridSettingChangesetPB.try_into
    rw [hne, hr1, hr2, hr3, hp]
    simp only [convertOption, deleteGroupTryInto, he, Except.map]

/-- Witness for C1: with a valid identifier but both an invalid insert-filter
payload and an invalid delete-group payload, the reported error is that of
the earlier field, insert-filter. -/
theorem try_into_short_circuit_order_witness :
    GridSettingChangesetPB.try_into
      (fun n => Except.error (n + 7) : Nat → Except Nat Nat)
      (fun n => Except.ok n : Nat → Except Nat Nat)
      (fun n => Except.ok n : Nat → Except Nat Nat)
      (fun n => Except.error (n + 9) : Nat → Except Nat Nat)
      { grid_id := "g", layout_type := GridLayout.Table,
        insert_filter := Option.some 1, delete_filter := Option.none,
        insert_group := Option.none, delete_group := Option.some 2 } =
    Except.error (ErrorCode.InvalidInsertFilterPayload 8) :=
  (try_into_short_circuit_order _ _ _ _ _).2.1 ⟨"g"⟩ 1 8 rfl rfl rfl

/-- C3: every failure of the conversion is attributable to exactly one of
five kinds — `ViewIdInvalid` when the identifier is malformed, or one of the
four delegated kinds, each wrapping the specific error the respective
subsystem produced for the payload that was present in the corresponding
field. -/
theorem try_into_error_attribution {FP DP GP HP AF DF IG DG E : Type}
    (fA : FP → Except E AF) (fD : DP → Except E DF)
    (fG : GP → Except E IG) (fH : HP → Except E DG)
    (self : GridSettingChangesetPB FP DP GP HP) (e : ErrorCode E)
    (h : self.try_into fA fD fG fH = Except.error e) :
    (e = ErrorCode.ViewIdInvalid ∧
      ∃ msg, NotEmptyStr.parse self.grid_id = Except.error msg) ∨
    (∃ p e2, self.insert_filter = Option.some p ∧ fA p = Except.error e2 ∧
      e = ErrorCode.InvalidInsertFilterPayload e2) ∨
    (∃ p e2, self.delete_filter = Option.some p ∧ fD p = Except.error e2 ∧
      e = ErrorCode.InvalidDeleteFilterPayload e2) ∨
    (∃ p e2, self.insert_group = Option.some p ∧ fG p = Except.error e2 ∧
      e = ErrorCode.InvalidInsertGroupPayload e2) ∨
    (∃ p e2, self.delete_group = Option.some p ∧ fH p = Except.error e2 ∧
      e = ErrorCode.InvalidDeleteGroupPayload e2) := by
  unfold GridSettingChangesetPB.try_into at h
  split at h
  · rename_i msg hmsg
    rw [Except.error.injEq] at h
    exact Or.inl ⟨h.symm, msg, hmsg⟩
  · split at h
    · rename_i e1 h1
      rw [Except.error.injEq] at h
      obtain ⟨p, hp, hw⟩ := (convertOption_eq_error_iff _ _ _).mp h1
      obtain ⟨e2, he2, htag⟩ := (alterFilterTryInto_error_iff _ _ _).mp hw
      exact Or.inr (Or.inl ⟨p, e2, hp, he2, h ▸ htag⟩)
    · split at h
      · rename_i e1 h1
        rw [Except.error.injEq] at h
        obtain ⟨p, hp, hw⟩ := (convertOption_eq_error_iff _ _ _).mp h1
        obtain ⟨e2, he2, htag⟩ := (deleteFilterTryInto_error_iff _ _ _).mp hw
        exact Or.inr (Or.inr (Or.inl ⟨p, e2, hp, he2, h ▸ htag⟩))
      · split at h
        · rename_i e1 h1
          rw [Except.error.injEq] at h
          obtain ⟨p, hp, hw⟩ := (convertOption_eq_error_iff _ _ _).mp h1
          obtain ⟨e2, he2, htag⟩ := (insertGroupTryInto_error_iff _ _ _).mp hw
          exact Or.inr (Or.inr (Or.inr (Or.inl ⟨p, e2, hp, he2, h ▸ htag⟩)))
        · split at h
          · rename_i e1 h1
            rw [Except.error.injEq] at h
            obtain ⟨p, hp, hw⟩ := (convertOption_eq_error_iff _ _ _).mp h1
            obtain ⟨e2, he2, htag⟩ := (deleteGroupTryInto_error_iff _ _ _).mp hw
            exact Or.inr (Or.inr (Or.inr (Or.inr ⟨p, e2, hp, he2, h ▸ htag⟩)))
          · exact absurd h (by simp)

/-- Witness for C3: a concrete conversion failing on its delete-group payload
satisfies the five-way attribution disjunction. -/
theorem try_into_error_attribution_witness :
    (ErrorCode.InvalidDeleteGroupPayload 9 = (ErrorCode.ViewIdInvalid : ErrorCode Nat) ∧
      ∃ msg, NotEmptyStr.parse "g" = Except.error msg) ∨
    (∃ p e2, (Option.none : Option Nat) = Option.some p ∧
      (fun n => Except.ok n : Nat → Except Nat Nat) p = Except.error e2 ∧
      ErrorCode.InvalidDeleteGroupPayload 9 = ErrorCode.InvalidInsertFilterPayload e2) ∨
    (∃ p e2, (Option.none : Option Nat) = Option.some p ∧
      (fun n => Except.ok n : Nat → Except Nat Nat) p = Except.error e2 ∧
      ErrorCode.InvalidDeleteGroupPayload 9 = ErrorCode.InvalidDeleteFilterPayload e2) ∨
    (∃ p e2, (Option.none : Option Nat) = Option.some p ∧
      (fun n => Except.ok n : Nat → Except Nat Nat) p = Except.error e2 ∧
      ErrorCode.InvalidDeleteGroupPayload 9 = ErrorCode.InvalidInsertGroupPayload e2) ∨
    (∃ p e2, (Option.some 2 : Option Nat) = Option.some p ∧
      (fun n => Except.error (n + 7) : Nat → Except Nat Nat) p = Except.error e2 ∧
      ErrorCode.InvalidDeleteGroupPayload 9 = ErrorCode.InvalidDeleteGroupPayload e2) :=
  try_into_error_attribution
    (fun n => Except.ok n : Nat → Except Nat Nat)
    (fun n => Except.ok n : Nat → Except Nat Nat)
    (fun n => Except.ok n : Nat → Except Nat Nat)
    (fun n => Except.error (n + 7) : Nat → Except Nat Nat)
    { grid_id := "g", layout_type := GridLayout.Table,
      insert_filter := Option.none, delete_filter := Option.none,
      insert_group := Option.none, delete_group := Option.some 2 }
    (ErrorCode.InvalidDeleteGroupPayload 9) rfl
